import Mathlib

/-!
# Sentinel-HFT conformance harness: verification of the spec against the code

This development shallowly embeds the two C++ simulation drivers of the
Sentinel-HFT repository (`src/sim/sim_risk.cpp`, the risk-gate testbench, and
`src/sim/sim_main.cpp`, the pipeline-shell testbench) and settles the spec's
claims about them.

The synthesizable RTL of the two devices under test (`Vtb_risk_gate`,
`Vtb_sentinel_shell`) is not part of the repository sources; where a claim is
decided by DUT behaviour, the DUT is modelled from the spec (section 4.3/4.4 of
`spec.md`) and the modelling definitions say so in their doc comments.
-/

namespace SentinelHFT

/-! ## Risk gate: order vocabulary (from `src/sim/sim_risk.cpp`, enums at lines 18-39) -/

/-- Reject reason codes, matching the `RiskReject` enum of `sim_risk.cpp`. -/
inductive RiskReject where
  | RISK_OK
  | RISK_RATE_LIMITED
  | RISK_POSITION_LIMIT
  | RISK_NOTIONAL_LIMIT
  | RISK_ORDER_SIZE
  | RISK_KILL_SWITCH
deriving DecidableEq, Repr

/-- Order side, matching the `OrderSide` enum of `sim_risk.cpp`. -/
inductive OrderSide where
  | SIDE_BUY
  | SIDE_SELL
deriving DecidableEq, Repr

/-- Order type, matching the `OrderType` enum of `sim_risk.cpp`. -/
inductive OrderType where
  | ORDER_NEW
  | ORDER_CANCEL
  | ORDER_MODIFY
  | ORDER_HEARTBEAT
deriving DecidableEq, Repr

/-- An order as submitted by `RiskGateTestbench::send_order` (side, type,
quantity, price, notional; `order_id` and `symbol_id` are bookkeeping and do
not enter the admission decision). -/
structure Order where
  side : OrderSide
  order_type : OrderType
  quantity : Nat
  price : Nat
  notional : Nat
deriving DecidableEq, Repr

/-! ## Risk policy model

Modelled from the spec: the risk-gate RTL (`Vtb_risk_gate`) is not under
`src/`; the admission-control contract below follows spec.md section 4.4
("Risk Policy Model") word for word. -/

/-- Modelled from the spec: the configuration inputs of the risk gate
(section 6, "DUT signal contract (risk-gate variant)"): rate limiter, position
limiter and kill switch configuration. -/
structure RiskConfig where
  cfg_rate_enabled : Bool
  cfg_rate_max_tokens : Nat
  cfg_rate_refill_rate : Nat
  cfg_rate_refill_period : Nat
  cfg_pos_enabled : Bool
  cfg_pos_max_long : Int
  cfg_pos_max_short : Int
  cfg_pos_max_notional : Int
  cfg_pos_max_order_qty : Nat
  cfg_kill_armed : Bool
  cfg_kill_auto_enabled : Bool
  cfg_kill_loss_threshold : Int
deriving DecidableEq, Repr

/-- Modelled from the spec: the mutable policy state of the risk gate
(section 3): rate-limiter token count, running net position and net notional
(mutated only by fills), and the latched kill-switch `triggered` flag. -/
structure RiskState where
  tokens : Nat
  position : Int
  net_notional : Int
  triggered : Bool
deriving DecidableEq, Repr

/-- Modelled from the spec: resulting net position of an order
("current ± quantity by side", section 4.4 step 3). -/
def resultingPosition (pos : Int) (side : OrderSide) (qty : Nat) : Int :=
  match side with
  | OrderSide.SIDE_BUY => pos + (qty : Int)
  | OrderSide.SIDE_SELL => pos - (qty : Int)

/-- Modelled from the spec: resulting net notional of an order, signed by
side like the net position (section 3, "running net quantity and net notional"). -/
def resultingNotional (net : Int) (side : OrderSide) (notional : Nat) : Int :=
  match side with
  | OrderSide.SIDE_BUY => net + (notional : Int)
  | OrderSide.SIDE_SELL => net - (notional : Int)

/-- Modelled from the spec: the per-order admission decision of the risk gate,
spec.md section 4.4, "Decision order (highest-priority rejection wins)":
1. kill switch (`armed ∧ triggered` → `KILL_SWITCH`, no bypass);
2. rate limit (`rate_enabled ∧ type ≠ HEARTBEAT ∧ tokens = 0` → `RATE_LIMITED`);
3. position/size limit, for NEW orders only (`ORDER_SIZE` if quantity over
   `cfg_max_order_qty`, else `POSITION_LIMIT` if the resulting position or
   notional would exceed its limit); CANCEL and MODIFY bypass it entirely;
4. otherwise admit `OK`. -/
def evaluate (cfg : RiskConfig) (st : RiskState) (o : Order) : RiskReject :=
  if cfg.cfg_kill_armed && st.triggered then
    RiskReject.RISK_KILL_SWITCH
  else if cfg.cfg_rate_enabled && decide (o.order_type ≠ OrderType.ORDER_HEARTBEAT)
          && decide (st.tokens = 0) then
    RiskReject.RISK_RATE_LIMITED
  else if cfg.cfg_pos_enabled && decide (o.order_type = OrderType.ORDER_NEW) then
    if o.quantity > cfg.cfg_pos_max_order_qty then
      RiskReject.RISK_ORDER_SIZE
    else
      let newPos := resultingPosition st.position o.side o.quantity
      let newNot := resultingNotional st.net_notional o.side o.notional
      if newPos > cfg.cfg_pos_max_long || (-newPos) > cfg.cfg_pos_max_short
          || newNot > cfg.cfg_pos_max_notional || (-newNot) > cfg.cfg_pos_max_notional then
        RiskReject.RISK_POSITION_LIMIT
      else
        RiskReject.RISK_OK
  else
    RiskReject.RISK_OK

/-- Modelled from the spec: "a non-heartbeat admitted order consumes exactly
one rate token (if rate limiting enabled)"; rejected orders, heartbeats, and
orders under a disabled rate limiter consume none (section 4.4, side effects). -/
def consumeToken (cfg : RiskConfig) (st : RiskState) (o : Order)
    (verdict : RiskReject) : RiskState :=
  if verdict = RiskReject.RISK_OK && cfg.cfg_rate_enabled
      && decide (o.order_type ≠ OrderType.ORDER_HEARTBEAT) then
    { st with tokens := st.tokens - 1 }
  else
    st

/-- Modelled from the spec: one order evaluation together with its admission
side effect on the rate-limiter state (position totals are updated only by
fills, never by admission). -/
def riskStep (cfg : RiskConfig) (st : RiskState) (o : Order) :
    RiskState × RiskReject :=
  let verdict := evaluate cfg st o
  (consumeToken cfg st o verdict, verdict)

/-- Modelled from the spec: the explicit kill-switch trigger command
(`cmd_kill_trigger`, harness method `trigger_kill`): latches `triggered`. -/
def killTrigger (st : RiskState) : RiskState :=
  { st with triggered := true }

/-- Modelled from the spec: the explicit kill-switch reset command
(`cmd_kill_reset`, harness method `reset_kill`): "cleared only by explicit
reset command" (section 3, KillSwitchState). -/
def killReset (st : RiskState) : RiskState :=
  { st with triggered := false }

/-- Modelled from the spec: a fill event updates the running net position and
net notional ("mutated only by Fill events", section 3). -/
def applyFill (st : RiskState) (side : OrderSide) (qty : Nat) (notional : Nat) :
    RiskState :=
  { st with
      position := resultingPosition st.position side qty
      net_notional := resultingNotional st.net_notional side notional }

/-- Run a back-to-back sequence of orders through the gate, returning the
verdict list in submission order and the final state. With `refill_rate = 0`
(the configuration of every claim that uses this) the token-bucket refill is
a no-op, so consecutive `riskStep`s model consecutive `send_order` calls. -/
def runOrders (cfg : RiskConfig) (st : RiskState) :
    List Order → List RiskReject × RiskState
  | [] => ([], st)
  | o :: rest =>
      let (st', verdict) := riskStep cfg st o
      let (verdicts, stFinal) := runOrders cfg st' rest
      (verdict :: verdicts, stFinal)

/-! ## Risk-gate testbench counters (from `src/sim/sim_risk.cpp`) -/

/-- The harness-owned statistics of `RiskGateTestbench` (lines 44-50 of
`sim_risk.cpp`) together with the file's function-local static `order_id`
counter (line 108) and the gate state the harness drives. -/
structure RiskTB where
  orders_sent : Nat
  orders_passed : Nat
  orders_rejected : Nat
  order_id : Nat
  cycles : Nat
  gate : RiskState
deriving DecidableEq, Repr

/-- Method `RiskGateTestbench::send_order` (lines 106-130 of `sim_risk.cpp`):
submits one order for one cycle, reads back the verdict the same cycle,
increments `orders_sent` and exactly one of `orders_passed` /
`orders_rejected`, and post-increments the static `order_id`. -/
def sendOrderTB (cfg : RiskConfig) (tb : RiskTB) (o : Order) : RiskTB :=
  let (gate', verdict) := riskStep cfg tb.gate o
  let passed := verdict = RiskReject.RISK_OK
  { tb with
      gate := gate'
      order_id := tb.order_id + 1
      cycles := tb.cycles + 1
      orders_sent := tb.orders_sent + 1
      orders_passed := if passed then tb.orders_passed + 1 else tb.orders_passed
      orders_rejected := if passed then tb.orders_rejected else tb.orders_rejected + 1 }

/-- Method `RiskGateTestbench::reset` (lines 72-103 of `sim_risk.cpp`): drives reset
and default configuration for 10 cycles plus one release cycle. It resets the
gate state but touches none of the harness statistics counters and not the
static `order_id`. -/
def riskResetTB (tb : RiskTB) : RiskTB :=
  { tb with
      cycles := tb.cycles + 11
      gate := { tokens := 0, position := 0, net_notional := 0, triggered := false } }

/-- The counter re-zeroing performed at the top of
`RiskGateTestbench::test_stress` (lines 532-534 of `sim_risk.cpp`): the three
statistics counters are zeroed together, never individually. -/
def stressZero (tb : RiskTB) : RiskTB :=
  { tb with orders_sent := 0, orders_passed := 0, orders_rejected := 0 }

/-- The counter invariant of the risk-gate harness: every order sent was
counted as exactly one of passed or rejected. -/
def riskCounterInv (tb : RiskTB) : Prop :=
  tb.orders_sent = tb.orders_passed + tb.orders_rejected

instance (tb : RiskTB) : Decidable (riskCounterInv tb) := by
  unfold riskCounterInv
  infer_instance

/-! ## Pipeline shell: trace records and the DUT model

From `src/sim/sim_main.cpp`: the `TraceRecord` layout (lines 35-46).  The
pipeline RTL (`Vtb_sentinel_shell`) is not under `src/`; the DUT transition
function below is modelled from the spec (sections 4.3 and 6). -/

/-- The 32-byte `TraceRecord` of `sim_main.cpp` (packed, no padding):
`tx_id`, `t_ingress`, `t_egress` are 64-bit, `flags`/`opcode` 16-bit, `meta`
32-bit.  Field-wise equality of two records coincides with `memcmp` equality
of their 32-byte images. -/
structure TraceRecord where
  tx_id : Nat
  t_ingress : Nat
  t_egress : Nat
  flags : Nat
  opcode : Nat
  meta : Nat
deriving DecidableEq, Repr

/-- Modelled from the spec: a transaction admitted by the DUT and not yet
relayed, carrying the DUT-assigned sequence id and its admission tick
(section 3, Transaction lifecycle). -/
structure PendingTx where
  tx_id : Nat
  t_ingress : Nat
  opcode : Nat
  meta : Nat
deriving DecidableEq, Repr

/-- Modelled from the spec: the state of the opaque pipeline DUT
(`Vtb_sentinel_shell` is not under `src/`): a relay stage, a monotonically
assigned `tx_id`, the simulated-time tick counter, a bounded internal trace
buffer with drop-when-full accounting (`trace_drop_count`, sticky
`trace_overflow_seen`), and the registered trace output port. -/
structure DutState where
  pending : Option PendingTx
  next_tx_id : Nat
  time : Nat
  fifo : List TraceRecord
  trace_out : Option TraceRecord
  trace_drop_count : Nat
  trace_overflow_seen : Bool
deriving DecidableEq, Repr

/-- Modelled from the spec: the post-reset DUT state (all counters and buffers
known-zero). -/
def dutInit : DutState :=
  { pending := none, next_tx_id := 0, time := 0, fifo := [],
    trace_out := none, trace_drop_count := 0, trace_overflow_seen := false }

/-- The DUT input signals the harness drives (section 6, pipeline variant). -/
structure DutInputs where
  rst_n : Bool
  in_valid : Bool
  in_data : Nat
  in_opcode : Nat
  in_meta : Nat
  out_ready : Bool
  trace_ready : Bool
deriving DecidableEq, Repr

/-- Modelled from the spec: the DUT's `in_ready` output — the stage can accept
when it is empty or when the downstream consumer is ready this cycle. -/
def dutInReady (s : DutState) (inp : DutInputs) : Bool :=
  s.pending.isNone || inp.out_ready

/-- The DUT's `out_valid` output: a relayed transaction is being presented. -/
def dutOutValid (s : DutState) : Bool :=
  s.pending.isSome

/-- The DUT's `trace_valid` output: a trace record is being presented on the
registered trace port. -/
def dutTraceValid (s : DutState) : Bool :=
  s.trace_out.isSome

/-- Modelled from the spec: one clock cycle of the pipeline DUT (sections 4.1,
4.3, 6).  While reset is asserted the state is the known-zero reset state.
Otherwise, in one cycle: a presented output completes its handshake when
`out_ready` is high and its trace record enters the bounded internal trace
buffer (capacity `cap`), with drop-when-full accounting (`trace_drop_count`
increments and `trace_overflow_seen` latches); the trace port pops one
buffered record only when the harness asserts `trace_ready`; an input
handshake (`in_valid ∧ in_ready`) admits a new transaction stamped with the
current tick; simulated time advances.  The transaction path never waits on
the trace path, so trace starvation cannot deadlock the pipeline. -/
def dutTick (cap : Nat) (s : DutState) (inp : DutInputs) : DutState :=
  if !inp.rst_n then dutInit
  else
    let s1 :=
      match s.pending with
      | some p =>
          if inp.out_ready then
            let r : TraceRecord :=
              { tx_id := p.tx_id, t_ingress := p.t_ingress, t_egress := s.time,
                flags := 0, opcode := p.opcode, meta := p.meta }
            let sDone := { s with pending := none }
            if sDone.fifo.length < cap then
              { sDone with fifo := sDone.fifo ++ [r] }
            else
              { sDone with trace_drop_count := sDone.trace_drop_count + 1,
                           trace_overflow_seen := true }
          else s
      | none => s
    let s2 :=
      if inp.trace_ready then
        match s1.fifo with
        | r :: rest => { s1 with fifo := rest, trace_out := some r }
        | [] => { s1 with trace_out := none }
      else
        { s1 with trace_out := none }
    let s3 :=
      if inp.in_valid && dutInReady s inp then
        { s2 with
            pending := some { tx_id := s2.next_tx_id, t_ingress := s2.time,
                              opcode := inp.in_opcode, meta := inp.in_meta }
            next_tx_id := s2.next_tx_id + 1 }
      else s2
    { s3 with time := s3.time + 1 }

/-! ## Pipeline shell testbench (from `src/sim/sim_main.cpp`) -/

/-- The harness state of `SentinelShellTestbench`: the DUT, the input signals
the harness holds applied, the collected trace sequence, and the statistics
counters (lines 56-82 of `sim_main.cpp`). -/
structure ShellTB where
  dut : DutState
  rst_n : Bool
  in_valid : Bool
  in_data : Nat
  in_opcode : Nat
  in_meta : Nat
  out_ready : Bool
  trace_ready : Bool
  cycles_run : Nat
  transactions_sent : Nat
  transactions_received : Nat
  traces : List TraceRecord
deriving DecidableEq, Repr

/-- The input signal bundle currently applied by the harness. -/
def tbInputs (tb : ShellTB) : DutInputs :=
  { rst_n := tb.rst_n, in_valid := tb.in_valid, in_data := tb.in_data,
    in_opcode := tb.in_opcode, in_meta := tb.in_meta,
    out_ready := tb.out_ready, trace_ready := tb.trace_ready }

/-- The `SentinelShellTestbench` construction (lines 77-84): all statistics
counters start at zero and the trace sequence empty; the DUT state is
arbitrary until `reset` is called. -/
def initShellTB (s : DutState) : ShellTB :=
  { dut := s, rst_n := true, in_valid := false, in_data := 0, in_opcode := 0,
    in_meta := 0, out_ready := true, trace_ready := true, cycles_run := 0,
    transactions_sent := 0, transactions_received := 0, traces := [] }

/-- Method `SentinelShellTestbench::tick` (lines 103-118): evaluate the DUT for one
clock cycle under the currently applied inputs and count the cycle. -/
def shellTick (cap : Nat) (tb : ShellTB) : ShellTB :=
  { tb with dut := dutTick cap tb.dut (tbInputs tb),
            cycles_run := tb.cycles_run + 1 }

/-- The signal assignments at the top of `SentinelShellTestbench::reset`
(lines 121-127): assert reset and drive every input to its inactive/default
value. -/
def resetSignals (tb : ShellTB) : ShellTB :=
  { tb with rst_n := false, in_valid := false, in_data := 0, in_opcode := 0,
            in_meta := 0, out_ready := true, trace_ready := true }

/-- Method `SentinelShellTestbench::reset` (lines 120-136): drive all inputs to
inactive/default values with reset asserted, hold for 10 cycles, release
reset, and tick once more.  Note it drives signals and the DUT only: no
harness counter and no collected trace is touched. -/
def resetTB (cap : Nat) (tb : ShellTB) : ShellTB :=
  shellTick cap { (shellTick cap)^[10] (resetSignals tb) with rst_n := true }

/-- The `while (!dut->in_ready) tick();` loop inside
`SentinelShellTestbench::send_transaction` (lines 146-148).  The C++ loop is
unbounded; the embedding bounds it by `fuel` ticks (in every run proved below
`in_ready` holds at entry, so the result does not depend on `fuel`). -/
def waitReadyAux (cap : Nat) : Nat → ShellTB → ShellTB
  | 0, tb => tb
  | fuel + 1, tb =>
      if dutInReady tb.dut (tbInputs tb) then tb
      else waitReadyAux cap fuel (shellTick cap tb)

/-- Method `SentinelShellTestbench::send_transaction` (lines 139-153): assert
`in_valid` with the payload, wait for `in_ready`, tick once to complete the
handshake, deassert `in_valid`, and count the transaction as sent. -/
def sendTransaction (cap fuel : Nat) (tb : ShellTB)
    (data opcode meta : Nat) : ShellTB :=
  let tb1 := { tb with in_valid := true, in_data := data,
                       in_opcode := opcode, in_meta := meta }
  let tb2 := waitReadyAux cap fuel tb1
  let tb3 := shellTick cap tb2
  { tb3 with in_valid := false,
             transactions_sent := tb3.transactions_sent + 1 }

/-- Method `SentinelShellTestbench::collect_trace` (lines 156-169): if the DUT
presents `trace_valid`, append the presented record to the in-memory trace
sequence. -/
def collectTrace (tb : ShellTB) : ShellTB :=
  match tb.dut.trace_out with
  | some r => { tb with traces := tb.traces ++ [r] }
  | none => tb

/-- Method `SentinelShellTestbench::collect_output` (lines 172-178): count a
completed output handshake (`out_valid ∧ out_ready`). -/
def collectOutput (tb : ShellTB) : ShellTB :=
  if dutOutValid tb.dut && tb.out_ready then
    { tb with transactions_received := tb.transactions_received + 1 }
  else tb

/-- Method `SentinelShellTestbench::process_cycle` (lines 181-190): force
`trace_ready` high, count a pending output handshake, tick, and collect any
presented trace record. -/
def processCycle (cap : Nat) (tb : ShellTB) : ShellTB :=
  collectTrace (shellTick cap (collectOutput { tb with trace_ready := true }))

/-- One iteration of the `SentinelShellTestbench::drain` loop body (lines
195-206): count a pending output handshake, tick, and collect a trace record
only if the harness is asserting `trace_ready`. -/
def drainStep (cap : Nat) (tb : ShellTB) : ShellTB :=
  let tb1 :=
    if dutOutValid tb.dut && tb.out_ready then
      { tb with transactions_received := tb.transactions_received + 1 }
    else tb
  let tb2 := shellTick cap tb1
  if tb2.trace_ready then collectTrace tb2 else tb2

/-- Method `SentinelShellTestbench::drain` (lines 193-211): repeat `drainStep` until
`received = sent` or the explicit `max_cycles` budget is exhausted (the fuel
argument); on exhaustion the loop exits with a non-fatal warning. -/
def drainLoop (cap : Nat) : Nat → ShellTB → ShellTB
  | 0, tb => tb
  | timeout + 1, tb =>
      if tb.transactions_received < tb.transactions_sent then
        drainLoop cap timeout (drainStep cap tb)
      else tb

/-! ## The overflow scenario (`SentinelShellTestbench::test_overflow`, lines 380-439) -/

/-- One iteration of the send loop of `test_overflow` (lines 389-395): check
for a pending output handshake before the blocking send (the inline check at
lines 391-393 is exactly `collect_output`'s condition), then send transaction
`i` with payload `(i, i & 0xFFFF, i)`. -/
def overflowSendStep (cap fuel i : Nat) (tb : ShellTB) : ShellTB :=
  sendTransaction cap fuel (collectOutput tb) i (i % 65536) i

/-- The send loop of `test_overflow`: send transactions `i, i+1, …, i+k-1`. -/
def overflowSendFrom (cap fuel : Nat) : Nat → Nat → ShellTB → ShellTB
  | _, 0, tb => tb
  | i, k + 1, tb => overflowSendFrom cap fuel (i + 1) k (overflowSendStep cap fuel i tb)

/-- The inline drain loop of `test_overflow` (lines 399-407): like `drain` but
never collecting traces, keeping trace consumption disabled. -/
def overflowDrainLoop (cap : Nat) : Nat → ShellTB → ShellTB
  | 0, tb => tb
  | timeout + 1, tb =>
      if tb.transactions_received < tb.transactions_sent then
        overflowDrainLoop cap timeout (shellTick cap (collectOutput tb))
      else tb

/-- Method `SentinelShellTestbench::test_overflow` (lines 380-439), run for `n`
transactions from an arbitrary initial DUT state `s`: reset, hold
`trace_ready` low for the entire run, send all transactions (counting
handshakes before each send), then drain with the 10000-cycle budget. -/
def testOverflowRun (cap fuel n : Nat) (s : DutState) : ShellTB :=
  let tb0 := resetTB cap (initShellTB s)
  let tb1 := { tb0 with trace_ready := false }
  overflowDrainLoop cap 10000 (overflowSendFrom cap fuel 0 n tb1)

/-! ## The determinism scenario (`SentinelShellTestbench::test_determinism`, lines 444-513)

The stimulus of one run is the stream of `(data, opcode, meta)` triples drawn
from the seeded `std::mt19937`; the embedding abstracts the generator as the
function `stim : Nat → Nat × Nat × Nat` from draw index to triple, which is a
fixed function of the seed alone.  Before the second run the harness clears
`traces` and re-zeroes its counters by hand (lines 471-474), so each embedded
run starts from fresh harness statistics but an arbitrary DUT state. -/

/-- The stimulus loop of `test_determinism` (lines 451-459 and 479-487): for
each of `k` remaining transactions, send the next stimulus triple and run
`process_cycle` three times. -/
def detSendLoop (cap fuel : Nat) (stim : Nat → Nat × Nat × Nat) :
    Nat → Nat → ShellTB → ShellTB
  | _, 0, tb => tb
  | i, k + 1, tb =>
      let t := stim i
      let tb1 := sendTransaction cap fuel tb t.1 t.2.1 t.2.2
      detSendLoop cap fuel stim (i + 1) k ((processCycle cap)^[3] tb1)

/-- One run of `test_determinism` (either of the two identical halves, lines
448-465 and 476-492): reset, send `n` stimulus transactions with interleaved
`process_cycle`s, drain with the 10000-cycle budget, and run 100 more
`process_cycle`s to collect stragglers.  The harness statistics start at
zero (fresh constructor state or the manual re-zeroing before run 2); the
initial DUT state `s` is arbitrary. -/
def testDeterminismRun (cap fuel n : Nat) (stim : Nat → Nat × Nat × Nat)
    (s : DutState) : ShellTB :=
  let tb0 := resetTB cap (initShellTB s)
  let tb1 := detSendLoop cap fuel stim 0 n tb0
  (processCycle cap)^[100] (drainLoop cap 10000 tb1)

/-! ## Abstract DUT behaviours (for the suspension-point claims)

The spec's termination claim quantifies over every DUT behaviour, so the two
suspension points are also embedded against an arbitrary transition system
presenting the `in_ready`/`out_valid` signals. -/

/-- An arbitrary DUT behaviour over state type `σ`: a one-cycle transition
function and the two output signals the suspension points poll.  The spec's
section 9 treats the DUT exactly this way ("an interface with one evaluate
operation taking the current input signal set"). -/
structure DutBehaviour (σ : Type) where
  stepFn : σ → DutInputs → σ
  inReadyOut : σ → Bool
  outValidOut : σ → Bool

/-- The `while (!dut->in_ready) tick();` loop of `send_transaction` against an
arbitrary DUT behaviour.  The C++ loop has no cycle budget; the embedding
observes it through `fuel` unrollings and returns `none` when `in_ready` was
never asserted within them: the loop terminates only if some finite number of
unrollings suffices. -/
def waitInReady {σ : Type} (d : DutBehaviour σ) (inp : DutInputs) :
    σ → Nat → Option σ
  | s, 0 => if d.inReadyOut s then some s else none
  | s, fuel + 1 =>
      if d.inReadyOut s then some s
      else waitInReady d inp (d.stepFn s inp) fuel

/-- A DUT behaviour that never asserts `in_ready` (a legal behaviour of the
opaque DUT at the signal contract of section 6). -/
def neverReadyDut : DutBehaviour Unit :=
  { stepFn := fun s _ => s, inReadyOut := fun _ => false,
    outValidOut := fun _ => false }

/-- The input bundle `send_transaction` holds applied while polling
`in_ready`: `in_valid` asserted with a payload, reset released. -/
def sendPollInputs : DutInputs :=
  { rst_n := true, in_valid := true, in_data := 0, in_opcode := 0,
    in_meta := 0, out_ready := true, trace_ready := true }

/-- Method `SentinelShellTestbench::drain` (lines 193-211) against an arbitrary DUT
behaviour, tracking only what bounds the loop: the `max_cycles` budget is the
recursion fuel (`timeout` in the source), and the result carries the final
state, the final received count, and the number of ticks performed.  Trace
collection inside the loop does not affect its control flow and is omitted
here. -/
def drainBounded {σ : Type} (d : DutBehaviour σ) (inp : DutInputs)
    (sent : Nat) : Nat → σ → Nat → σ × Nat × Nat
  | 0, s, received => (s, received, 0)
  | timeout + 1, s, received =>
      if received < sent then
        let received' :=
          if d.outValidOut s && inp.out_ready then received + 1 else received
        let rest := drainBounded d inp sent timeout (d.stepFn s inp) received'
        (rest.1, rest.2.1, rest.2.2 + 1)
      else (s, received, 0)

/-! ## Concrete scenario data (configurations and orders from the tests) -/

/-- The configuration of `test_reject_priority` (lines 465-482 of
`sim_risk.cpp`): all three limiters set up to fail (zero tokens, zero position
allowance, kill switch armed); fields not written by the test keep their
`reset` defaults. -/
def cfgPriority : RiskConfig :=
  { cfg_rate_enabled := true, cfg_rate_max_tokens := 0, cfg_rate_refill_rate := 0,
    cfg_rate_refill_period := 1000, cfg_pos_enabled := true,
    cfg_pos_max_long := 0, cfg_pos_max_short := 0,
    cfg_pos_max_notional := 1000000, cfg_pos_max_order_qty := 0,
    cfg_kill_armed := true, cfg_kill_auto_enabled := false,
    cfg_kill_loss_threshold := 100000 }

/-- The gate state of `test_reject_priority` after `trigger_kill()`: zero
tokens, flat position, kill switch triggered. -/
def stPriority : RiskState :=
  { tokens := 0, position := 0, net_notional := 0, triggered := true }

/-- The order every risk test submits: `send_order(SIDE_BUY, ORDER_NEW, 100,
100, 10000)`. -/
def orderNew100 : Order :=
  { side := OrderSide.SIDE_BUY, order_type := OrderType.ORDER_NEW,
    quantity := 100, price := 100, notional := 10000 }

/-- The configuration of `test_heartbeat_bypass` (lines 252-255): rate limiter
enabled with zero tokens, everything else at `reset` defaults. -/
def cfgHeartbeat : RiskConfig :=
  { cfg_rate_enabled := true, cfg_rate_max_tokens := 0, cfg_rate_refill_rate := 0,
    cfg_rate_refill_period := 10000, cfg_pos_enabled := false,
    cfg_pos_max_long := 10000, cfg_pos_max_short := 10000,
    cfg_pos_max_notional := 1000000, cfg_pos_max_order_qty := 1000,
    cfg_kill_armed := false, cfg_kill_auto_enabled := false,
    cfg_kill_loss_threshold := 100000 }

/-- A zero-token gate state with the kill switch untriggered. -/
def stZeroTokens : RiskState :=
  { tokens := 0, position := 0, net_notional := 0, triggered := false }

/-- The heartbeat order of `test_heartbeat_bypass` (line 264):
`send_order(SIDE_BUY, ORDER_HEARTBEAT, 0, 0, 0)`. -/
def orderHeartbeat : Order :=
  { side := OrderSide.SIDE_BUY, order_type := OrderType.ORDER_HEARTBEAT,
    quantity := 0, price := 0, notional := 0 }

/-- The configuration of `test_cancel_passes` (lines 350-353): position
limiter enabled with `max_long = max_short = 1000` and `max_order_qty = 100`,
everything else at `reset` defaults. -/
def cfgCancel : RiskConfig :=
  { cfg_rate_enabled := false, cfg_rate_max_tokens := 100, cfg_rate_refill_rate := 10,
    cfg_rate_refill_period := 1000, cfg_pos_enabled := true,
    cfg_pos_max_long := 1000, cfg_pos_max_short := 1000,
    cfg_pos_max_notional := 1000000, cfg_pos_max_order_qty := 100,
    cfg_kill_armed := false, cfg_kill_auto_enabled := false,
    cfg_kill_loss_threshold := 100000 }

/-- The gate state of `test_cancel_passes` after `send_fill(SIDE_BUY, 1000,
100000)`: position at its maximum. -/
def stMaxPosition : RiskState :=
  applyFill stZeroTokens OrderSide.SIDE_BUY 1000 100000

/-- The cancel order of `test_cancel_passes` (line 365):
`send_order(SIDE_BUY, ORDER_CANCEL, 500, 100, 50000)`. -/
def orderCancel500 : Order :=
  { side := OrderSide.SIDE_BUY, order_type := OrderType.ORDER_CANCEL,
    quantity := 500, price := 100, notional := 50000 }

/-- The configuration of `test_rate_limit_basic` (lines 165-168): rate limiter
enabled with `max_tokens = 11` and `refill_rate = 0`, everything else at
`reset` defaults. -/
def cfgRateBasic : RiskConfig :=
  { cfg_rate_enabled := true, cfg_rate_max_tokens := 11, cfg_rate_refill_rate := 0,
    cfg_rate_refill_period := 10000, cfg_pos_enabled := false,
    cfg_pos_max_long := 10000, cfg_pos_max_short := 10000,
    cfg_pos_max_notional := 1000000, cfg_pos_max_order_qty := 1000,
    cfg_kill_armed := false, cfg_kill_auto_enabled := false,
    cfg_kill_loss_threshold := 100000 }

/-- The gate state of `test_rate_limit_basic` once the bucket has filled to
its `max_tokens = 11` capacity (with `refill_rate = 0` the level then only
ever decreases). -/
def stElevenTokens : RiskState :=
  { tokens := 11, position := 0, net_notional := 0, triggered := false }

/-- A fresh `RiskGateTestbench` (constructor state, lines 44-54 of
`sim_risk.cpp`): all statistics zero, static `order_id` zero. -/
def riskTB0 : RiskTB :=
  { orders_sent := 0, orders_passed := 0, orders_rejected := 0,
    order_id := 0, cycles := 0, gate := stZeroTokens }

/-- A sample trace record, used to exhibit a cycle on which the DUT presents
`trace_valid`. -/
def traceRecEx : TraceRecord :=
  { tx_id := 0, t_ingress := 1, t_egress := 2, flags := 0, opcode := 0, meta := 0 }

/-- A harness state whose DUT holds one buffered trace record, so the next
collecting cycle captures it. -/
def tbCapture : ShellTB :=
  initShellTB { dutInit with fifo := [traceRecEx] }

/-- A harness state holding `trace_ready` deasserted while the DUT presents a
trace record (`trace_valid` high). -/
def tbStarved : ShellTB :=
  { initShellTB { dutInit with trace_out := some traceRecEx } with trace_ready := false }

/-- The loop invariant of the `test_overflow` send loop, holding after `i ≥ 1`
sends under total trace starvation: the harness keeps `out_ready` high and
`trace_ready` low, has counted all but the in-flight transaction, and the
DUT's bounded trace buffer holds `min (i-1) cap` records with
`(i-1) - cap` drop-when-full events, the overflow flag latched exactly when a
drop has occurred. -/
def OvfInv (cap i : Nat) (tb : ShellTB) : Prop :=
  tb.rst_n = true ∧ tb.in_valid = false ∧ tb.out_ready = true
  ∧ tb.trace_ready = false
  ∧ tb.transactions_sent = i
  ∧ tb.transactions_received = i - 1
  ∧ tb.dut.pending.isSome = true
  ∧ tb.dut.fifo.length = min (i - 1) cap
  ∧ tb.dut.trace_drop_count = i - 1 - cap
  ∧ tb.dut.trace_overflow_seen = decide (cap < i - 1)

/-! ## Claims about the risk gate -/

/-- Claim C1: For every submitted order, when the kill switch is armed and
triggered the reject reason is `KILL_SWITCH`, regardless of which other
limiters also fail; and after an explicit kill reset, an order that fails both
the rate limiter (rate limiting enabled, zero tokens) and the position limiter
(position limiting enabled, NEW order over the size limit) is rejected with
reason `RATE_LIMITED` — rate limit outranks position limit. -/
theorem claim_C1_reject_priority (cfg : RiskConfig) (st : RiskState) (o : Order) :
    (cfg.cfg_kill_armed = true → st.triggered = true →
       evaluate cfg st o = RiskReject.RISK_KILL_SWITCH)
    ∧ (cfg.cfg_rate_enabled = true → o.order_type = OrderType.ORDER_NEW →
       st.tokens = 0 → cfg.cfg_pos_enabled = true →
       cfg.cfg_pos_max_order_qty < o.quantity →
       evaluate cfg (killReset st) o = RiskReject.RISK_RATE_LIMITED) := by
  constructor
  · intro h1 h2
    simp [evaluate, h1, h2]
  · intro h1 h2 h3 _ _
    simp [evaluate, killReset, h1, h2, h3]

/-- Witness for C1 at the concrete `test_reject_priority` scenario: with all
three limiters failing the verdict is `KILL_SWITCH`; after `reset_kill` the
verdict becomes `RATE_LIMITED`. -/
theorem claim_C1_witness :
    evaluate cfgPriority stPriority orderNew100 = RiskReject.RISK_KILL_SWITCH
    ∧ evaluate cfgPriority (killReset stPriority) orderNew100
        = RiskReject.RISK_RATE_LIMITED :=
  ⟨(claim_C1_reject_priority cfgPriority stPriority orderNew100).1 rfl rfl,
   (claim_C1_reject_priority cfgPriority stPriority orderNew100).2
     rfl rfl rfl rfl (by decide)⟩

/-- Claim C7: Every HEARTBEAT order submitted while the kill switch is not
active (not armed, or not triggered) is admitted regardless of the rate
limiter state — in particular with the rate limiter enabled and zero tokens —
and the evaluation leaves the gate state unchanged: no token is consumed. -/
theorem claim_C7_heartbeat_bypass (cfg : RiskConfig) (st : RiskState) (o : Order)
    (hHB : o.order_type = OrderType.ORDER_HEARTBEAT)
    (hKill : cfg.cfg_kill_armed = false ∨ st.triggered = false) :
    riskStep cfg st o = (st, RiskReject.RISK_OK) := by
  rcases hKill with h | h <;>
    simp [riskStep, evaluate, consumeToken, hHB, h]

/-- Witness for C7 at the `test_heartbeat_bypass` scenario: rate limiter
enabled with zero tokens, heartbeat admitted, no state change. -/
theorem claim_C7_witness :
    orderHeartbeat.order_type = OrderType.ORDER_HEARTBEAT
    ∧ riskStep cfgHeartbeat stZeroTokens orderHeartbeat
        = (stZeroTokens, RiskReject.RISK_OK) :=
  ⟨rfl, claim_C7_heartbeat_bypass cfgHeartbeat stZeroTokens orderHeartbeat rfl
          (Or.inl rfl)⟩

/-- Claim C8: Every CANCEL or MODIFY order bypasses the position/size limiter
entirely, regardless of its quantity: absent a kill-switch or rate-limit
rejection it is admitted whatever the position state; while at the long
position maximum a NEW buy order of any positive quantity is rejected. -/
theorem claim_C8_cancel_bypass (cfg : RiskConfig) (st : RiskState) (o : Order) :
    ((o.order_type = OrderType.ORDER_CANCEL ∨ o.order_type = OrderType.ORDER_MODIFY) →
       (cfg.cfg_kill_armed = false ∨ st.triggered = false) →
       (cfg.cfg_rate_enabled = false ∨ st.tokens ≠ 0) →
       evaluate cfg st o = RiskReject.RISK_OK)
    ∧ (o.order_type = OrderType.ORDER_NEW → o.side = OrderSide.SIDE_BUY →
       1 ≤ o.quantity →
       (cfg.cfg_kill_armed = false ∨ st.triggered = false) →
       (cfg.cfg_rate_enabled = false ∨ st.tokens ≠ 0) →
       cfg.cfg_pos_enabled = true →
       st.position = cfg.cfg_pos_max_long →
       evaluate cfg st o ≠ RiskReject.RISK_OK) := by
  constructor
  · intro hType hKill hRate
    rcases hKill with hk | hk <;> rcases hRate with hr | hr <;>
      rcases hType with ht | ht <;>
        simp [evaluate, ht, hk, hr]
  · intro hNew hBuy hQty hKill hRate hPos hMax
    have hResPos : resultingPosition st.position o.side o.quantity
        = cfg.cfg_pos_max_long + (o.quantity : Int) := by
      simp [resultingPosition, hBuy, hMax]
    have hGt : cfg.cfg_pos_max_long + (o.quantity : Int) > cfg.cfg_pos_max_long := by
      have : (1 : Int) ≤ (o.quantity : Int) := by exact_mod_cast hQty
      omega
    rcases hKill with hk | hk <;> rcases hRate with hr | hr <;>
      by_cases hsz : o.quantity > cfg.cfg_pos_max_order_qty <;>
        simp [evaluate, hNew, hk, hr, hPos, hsz, hResPos, hGt]

/-- Witness for C8 at the `test_cancel_passes` scenario: at max position, a
CANCEL of 500 is admitted and a NEW buy of 100 is rejected. -/
theorem claim_C8_witness :
    evaluate cfgCancel stMaxPosition orderCancel500 = RiskReject.RISK_OK
    ∧ evaluate cfgCancel stMaxPosition orderNew100 ≠ RiskReject.RISK_OK :=
  ⟨(claim_C8_cancel_bypass cfgCancel stMaxPosition orderCancel500).1
     (Or.inl rfl) (Or.inl rfl) (Or.inl rfl),
   (claim_C8_cancel_bypass cfgCancel stMaxPosition orderNew100).2
     rfl rfl (by decide) (Or.inl rfl) (Or.inl rfl) rfl (by decide)⟩

/-- Claim C9: With the rate limiter enabled, `max_tokens = 11` and
`refill_rate = 0`, of 15 rapid NEW orders submitted back-to-back the first 11
(within the "~10" band the test accepts, 9 to 11) are admitted and all
remaining orders are rejected with reason `RATE_LIMITED`; in general a
non-heartbeat order is rejected `RATE_LIMITED` exactly when the available
token count is zero (absent a kill-switch rejection). -/
theorem claim_C9_rate_limit_basic :
    (runOrders cfgRateBasic stElevenTokens (List.replicate 15 orderNew100)).1
      = List.replicate 11 RiskReject.RISK_OK
        ++ List.replicate 4 RiskReject.RISK_RATE_LIMITED
    ∧ ∀ (cfg : RiskConfig) (st : RiskState) (o : Order),
        (cfg.cfg_kill_armed = false ∨ st.triggered = false) →
        cfg.cfg_rate_enabled = true →
        o.order_type ≠ OrderType.ORDER_HEARTBEAT →
        (evaluate cfg st o = RiskReject.RISK_RATE_LIMITED ↔ st.tokens = 0) := by
  constructor
  · decide
  · intro cfg st o hKill hRate hHB
    constructor
    · intro hEval
      by_contra htok
      rcases hKill with hk | hk <;>
        simp only [evaluate, hk, hRate, hHB, htok] at hEval <;>
          simp at hEval <;> split_ifs at hEval
    · intro htok
      rcases hKill with hk | hk <;>
        simp [evaluate, hk, hRate, hHB, htok]

/-- Witness for C9's universal part at the `test_rate_limit_basic`
configuration with the bucket exhausted: the order is rejected `RATE_LIMITED`
and indeed the token count is zero. -/
theorem claim_C9_witness :
    evaluate cfgRateBasic stZeroTokens orderNew100 = RiskReject.RISK_RATE_LIMITED
      ↔ stZeroTokens.tokens = 0 :=
  claim_C9_rate_limit_basic.2 cfgRateBasic stZeroTokens orderNew100
    (Or.inl rfl) rfl (by decide)

/-- Claim C10: Every call to `send_order` increments `orders_sent` by exactly
one and exactly one of `orders_passed` / `orders_rejected` by exactly one, so
the invariant `orders_sent = orders_passed + orders_rejected` is preserved by
`send_order`; it is re-established by the joint re-zeroing of the three
counters in `test_stress`, and preserved by `reset` (which touches none of
them). -/
theorem claim_C10_counter_invariant (cfg : RiskConfig) (tb : RiskTB) (o : Order) :
    (sendOrderTB cfg tb o).orders_sent = tb.orders_sent + 1
    ∧ (((sendOrderTB cfg tb o).orders_passed = tb.orders_passed + 1
          ∧ (sendOrderTB cfg tb o).orders_rejected = tb.orders_rejected)
       ∨ ((sendOrderTB cfg tb o).orders_passed = tb.orders_passed
          ∧ (sendOrderTB cfg tb o).orders_rejected = tb.orders_rejected + 1))
    ∧ (riskCounterInv tb → riskCounterInv (sendOrderTB cfg tb o))
    ∧ riskCounterInv (stressZero tb)
    ∧ (riskCounterInv tb → riskCounterInv (riskResetTB tb)) := by
  by_cases hp : evaluate cfg tb.gate o = RiskReject.RISK_OK <;>
    simp [sendOrderTB, riskStep, riskCounterInv, stressZero, riskResetTB, hp] <;>
      omega

/-- Witness for C10 at a fresh testbench sending the standard NEW order: the
invariant holds before and is preserved by the call. -/
theorem claim_C10_witness :
    riskCounterInv riskTB0
    ∧ riskCounterInv (sendOrderTB cfgRateBasic riskTB0 orderNew100) :=
  ⟨by decide,
   (claim_C10_counter_invariant cfgRateBasic riskTB0 orderNew100).2.2.1 (by decide)⟩

/-! ## Claims about the harness suspension points and reset -/

/-- Against a DUT that never asserts `in_ready`, the polling loop of
`send_transaction` never completes, no matter how many iterations are
observed. -/
lemma waitInReady_neverReady (inp : DutInputs) :
    ∀ (fuel : Nat) (s : Unit), waitInReady neverReadyDut inp s fuel = none := by
  intro fuel
  induction fuel with
  | zero =>
      intro s
      have h1 : neverReadyDut.inReadyOut s = false := rfl
      simp [waitInReady, h1]
  | succ n ih =>
      intro s
      have h1 : neverReadyDut.inReadyOut s = false := rfl
      simp [waitInReady, h1, ih]

/-- Claim C4 counterexample: The claim that both suspension points are bounded
by an explicit cycle budget and terminate for every DUT behaviour is false:
for the legal DUT behaviour that never asserts `in_ready`, the input-ready
wait of `send_transaction` completes within no finite number of iterations —
the C++ `while (!dut->in_ready) tick();` loop has no budget and runs
forever. -/
theorem claim_C4_counterexample :
    ¬ ∃ fuel : Nat,
        (waitInReady neverReadyDut sendPollInputs () fuel).isSome = true := by
  rintro ⟨fuel, hf⟩
  rw [waitInReady_neverReady sendPollInputs fuel ()] at hf
  simp at hf

/-- Claim C4, amended: Only the drain suspension point is bounded by an
explicit cycle budget: `drain` performs at most `max_cycles` ticks for every
DUT behaviour and every starting state, degrading to a non-fatal timeout.
The input-ready wait inside `send_transaction` has no cycle budget: for a DUT
that never asserts `in_ready` it never completes. -/
theorem claim_C4_drain_bounded_send_unbounded :
    (∀ (σ : Type) (d : DutBehaviour σ) (inp : DutInputs) (sent fuel : Nat)
        (s : σ) (received : Nat),
       (drainBounded d inp sent fuel s received).2.2 ≤ fuel)
    ∧ (∀ fuel : Nat, waitInReady neverReadyDut sendPollInputs () fuel = none) := by
  constructor
  · intro σ d inp sent fuel
    induction fuel with
    | zero => intro s received; simp [drainBounded]
    | succ t ih =>
        intro s received
        simp only [drainBounded]
        split
        · simpa using Nat.succ_le_succ (ih _ _)
        · simp
  · intro fuel
    exact waitInReady_neverReady sendPollInputs fuel ()

/-- Helper fact: `shellTick` leaves `transactions_sent` untouched. -/
lemma shellTick_sent (cap : Nat) (tb : ShellTB) :
    (shellTick cap tb).transactions_sent = tb.transactions_sent := rfl

/-- Helper fact: `shellTick` leaves `transactions_received` untouched. -/
lemma shellTick_recv (cap : Nat) (tb : ShellTB) :
    (shellTick cap tb).transactions_received = tb.transactions_received := rfl

/-- Helper fact: `shellTick` leaves the collected trace sequence untouched. -/
lemma shellTick_traces (cap : Nat) (tb : ShellTB) :
    (shellTick cap tb).traces = tb.traces := rfl

/-- Helper fact: `shellTick` advances `cycles_run` by one. -/
lemma shellTick_cycles (cap : Nat) (tb : ShellTB) :
    (shellTick cap tb).cycles_run = tb.cycles_run + 1 := rfl

/-- Iterated `shellTick`s leave the harness statistics untouched except for
the cycle counter, which advances by the number of ticks. -/
lemma iterate_shellTick_stats (cap : Nat) :
    ∀ (n : Nat) (tb : ShellTB),
      ((shellTick cap)^[n] tb).transactions_sent = tb.transactions_sent
      ∧ ((shellTick cap)^[n] tb).transactions_received = tb.transactions_received
      ∧ ((shellTick cap)^[n] tb).traces = tb.traces
      ∧ ((shellTick cap)^[n] tb).cycles_run = tb.cycles_run + n := by
  intro n
  induction n with
  | zero => intro tb; simp
  | succ n ih =>
      intro tb
      rw [Function.iterate_succ_apply]
      obtain ⟨a, b, c, d⟩ := ih (shellTick cap tb)
      refine ⟨by rw [a, shellTick_sent], by rw [b, shellTick_recv],
              by rw [c, shellTick_traces], by rw [d, shellTick_cycles]; omega⟩

/-- Releasing reset (`rst_n := true`) touches no statistic field. -/
lemma withRst_sent (tbv : ShellTB) :
    ({ tbv with rst_n := true } : ShellTB).transactions_sent
      = tbv.transactions_sent := rfl

/-- Releasing reset (`rst_n := true`) touches no statistic field. -/
lemma withRst_recv (tbv : ShellTB) :
    ({ tbv with rst_n := true } : ShellTB).transactions_received
      = tbv.transactions_received := rfl

/-- Releasing reset (`rst_n := true`) touches no statistic field. -/
lemma withRst_traces (tbv : ShellTB) :
    ({ tbv with rst_n := true } : ShellTB).traces = tbv.traces := rfl

/-- Releasing reset (`rst_n := true`) touches no statistic field. -/
lemma withRst_cycles (tbv : ShellTB) :
    ({ tbv with rst_n := true } : ShellTB).cycles_run = tbv.cycles_run := rfl

/-- Driving the reset-default input signals touches no statistic field. -/
lemma resetSignals_sent (tbv : ShellTB) :
    (resetSignals tbv).transactions_sent = tbv.transactions_sent := rfl

/-- Driving the reset-default input signals touches no statistic field. -/
lemma resetSignals_recv (tbv : ShellTB) :
    (resetSignals tbv).transactions_received = tbv.transactions_received := rfl

/-- Driving the reset-default input signals touches no statistic field. -/
lemma resetSignals_traces (tbv : ShellTB) :
    (resetSignals tbv).traces = tbv.traces := rfl

/-- Driving the reset-default input signals touches no statistic field. -/
lemma resetSignals_cycles (tbv : ShellTB) :
    (resetSignals tbv).cycles_run = tbv.cycles_run := rfl

/-- The effect of `reset()` on the harness statistics, in terms of the state
it was called on. -/
lemma resetTB_stats (cap : Nat) (tb : ShellTB) :
    (resetTB cap tb).transactions_sent = tb.transactions_sent
    ∧ (resetTB cap tb).transactions_received = tb.transactions_received
    ∧ (resetTB cap tb).traces = tb.traces
    ∧ (resetTB cap tb).cycles_run = tb.cycles_run + 11 := by
  obtain ⟨a, b, c, d⟩ := iterate_shellTick_stats cap 10 (resetSignals tb)
  refine ⟨?_, ?_, ?_, ?_⟩ <;> simp only [resetTB]
  · rw [shellTick_sent, withRst_sent, a, resetSignals_sent]
  · rw [shellTick_recv, withRst_recv, b, resetSignals_recv]
  · rw [shellTick_traces, withRst_traces, c, resetSignals_traces]
  · rw [shellTick_cycles, withRst_cycles, d, resetSignals_cycles]

/-- Claim C5 counterexample: The claim that `reset()` re-zeroes every
harness-owned counter is false: a harness that has already sent five
transactions still reports five after `reset()`, and the static `order_id`
counter of the risk harness survives its `reset()` as well. -/
theorem claim_C5_counterexample :
    (resetTB 4 { initShellTB dutInit with transactions_sent := 5 }).transactions_sent ≠ 0
    ∧ (riskResetTB { riskTB0 with order_id := 7 }).order_id ≠ 0 := by
  constructor
  · rw [(resetTB_stats 4 { initShellTB dutInit with transactions_sent := 5 }).1]
    decide
  · decide

/-- Claim C5, amended: `reset()` drives the DUT inputs to defaults and resets
the DUT over 11 cycles, but reinitializes no harness-owned counter: it
preserves `transactions_sent`, `transactions_received` and the collected
trace sequence while advancing `cycles_run` by 11, and the risk harness's
`reset()` likewise preserves its three statistics counters and the static
`order_id` (scenarios that need fresh statistics re-zero them by hand, as
`test_determinism` and `test_stress` do). -/
theorem claim_C5_reset_preserves_counters (cap : Nat) (tb : ShellTB) (rtb : RiskTB) :
    (resetTB cap tb).transactions_sent = tb.transactions_sent
    ∧ (resetTB cap tb).transactions_received = tb.transactions_received
    ∧ (resetTB cap tb).traces = tb.traces
    ∧ (resetTB cap tb).cycles_run = tb.cycles_run + 11
    ∧ (riskResetTB rtb).orders_sent = rtb.orders_sent
    ∧ (riskResetTB rtb).orders_passed = rtb.orders_passed
    ∧ (riskResetTB rtb).orders_rejected = rtb.orders_rejected
    ∧ (riskResetTB rtb).order_id = rtb.order_id := by
  obtain ⟨a, b, c, d⟩ := resetTB_stats cap tb
  exact ⟨a, b, c, d, rfl, rfl, rfl, rfl⟩

/-! ## The determinism claim -/

/-- A tick with reset asserted drives the DUT to its known-zero reset state
no matter what state it held before. -/
lemma shellTick_reset (cap : Nat) (tb : ShellTB) (h : tb.rst_n = false) :
    shellTick cap tb = { tb with dut := dutInit, cycles_run := tb.cycles_run + 1 } := by
  simp [shellTick, dutTick, tbInputs, h]

/-- The state of the harness after `reset()` does not depend on the DUT state
the harness started from: the first cycle of asserted reset erases it. -/
lemma resetTB_initShell_indep (cap : Nat) (s1 s2 : DutState) :
    resetTB cap (initShellTB s1) = resetTB cap (initShellTB s2) := by
  have h1 : shellTick cap (resetSignals (initShellTB s1))
      = shellTick cap (resetSignals (initShellTB s2)) := by
    rw [shellTick_reset cap (resetSignals (initShellTB s1)) rfl,
        shellTick_reset cap (resetSignals (initShellTB s2)) rfl]
    rfl
  have e1 : (shellTick cap)^[10] (resetSignals (initShellTB s1))
      = (shellTick cap)^[9] (shellTick cap (resetSignals (initShellTB s1))) :=
    Function.iterate_succ_apply (shellTick cap) 9 (resetSignals (initShellTB s1))
  have e2 : (shellTick cap)^[10] (resetSignals (initShellTB s2))
      = (shellTick cap)^[9] (shellTick cap (resetSignals (initShellTB s2))) :=
    Function.iterate_succ_apply (shellTick cap) 9 (resetSignals (initShellTB s2))
  simp only [resetTB]
  rw [e1, e2, h1]

/-- Claim C3: Two runs of the determinism scenario with the same stimulus
stream (the same seed) produce identical collected `TraceRecord` sequences —
equal length and field-for-field (hence, for the packed 32-byte layout,
byte-for-byte / `memcmp`-equal) agreement at every index — for every
stimulus function, every transaction count, and any pair of initial DUT
states (so no state leaks across the `reset()` that starts each run). -/
theorem claim_C3_determinism (cap fuel n : Nat) (stim : Nat → Nat × Nat × Nat)
    (s1 s2 : DutState) :
    (testDeterminismRun cap fuel n stim s1).traces
      = (testDeterminismRun cap fuel n stim s2).traces
    ∧ (testDeterminismRun cap fuel n stim s1).traces.length
      = (testDeterminismRun cap fuel n stim s2).traces.length
    ∧ ∀ i : Nat,
        (testDeterminismRun cap fuel n stim s1).traces.get? i
          = (testDeterminismRun cap fuel n stim s2).traces.get? i := by
  have hrun : testDeterminismRun cap fuel n stim s1
      = testDeterminismRun cap fuel n stim s2 := by
    simp only [testDeterminismRun, resetTB_initShell_indep cap s1 s2]
  exact ⟨by rw [hrun], by rw [hrun], fun i => by rw [hrun]⟩

/-! ## The trace-capture handshake claim -/

/-- Helper fact: `collect_output` touches neither the DUT nor the trace state. -/
lemma collectOutput_dut (tbv : ShellTB) : (collectOutput tbv).dut = tbv.dut := by
  unfold collectOutput
  split <;> rfl

/-- Helper fact: `collect_output` leaves the collected trace sequence unchanged. -/
lemma collectOutput_traces (tbv : ShellTB) :
    (collectOutput tbv).traces = tbv.traces := by
  unfold collectOutput
  split <;> rfl

/-- Helper fact: `collect_output` leaves the applied `trace_ready` signal unchanged. -/
lemma collectOutput_ready (tbv : ShellTB) :
    (collectOutput tbv).trace_ready = tbv.trace_ready := by
  unfold collectOutput
  split <;> rfl

/-- Helper fact: `collect_trace` appends exactly the record the DUT is presenting (none if
`trace_valid` is low). -/
lemma collectTrace_traces_eq (tbv : ShellTB) :
    (collectTrace tbv).traces = tbv.traces ++ tbv.dut.trace_out.toList := by
  cases h : tbv.dut.trace_out <;> simp [collectTrace, h]

/-- Helper fact: `collect_trace` leaves the applied `trace_ready` signal unchanged. -/
lemma collectTrace_ready (tbv : ShellTB) :
    (collectTrace tbv).trace_ready = tbv.trace_ready := by
  cases h : tbv.dut.trace_out <;> simp [collectTrace, h]

/-- Helper fact: `shellTick` leaves the applied `trace_ready` signal unchanged. -/
lemma shellTick_ready (cap : Nat) (tbv : ShellTB) :
    (shellTick cap tbv).trace_ready = tbv.trace_ready := rfl

/-- While the harness holds `trace_ready` deasserted, a drain iteration
captures nothing, whatever the DUT presents. -/
lemma drainStep_traces_low (cap : Nat) (tb : ShellTB) (h : tb.trace_ready = false) :
    (drainStep cap tb).traces = tb.traces := by
  by_cases hc : (dutOutValid tb.dut && tb.out_ready) = true <;>
    simp [drainStep, hc, h, shellTick]

/-- Claim C6: A `TraceRecord` is appended to the in-memory trace sequence only
on a cycle where the DUT asserts `trace_valid` while the harness asserts
`trace_ready`: `process_cycle` itself asserts `trace_ready` and captures only
when the post-tick `trace_valid` is high; a `drain` iteration with
`trace_ready` deasserted captures nothing even if `trace_valid` is high, and
any capture it does make implies the harness was asserting `trace_ready`. -/
theorem claim_C6_trace_capture_handshake (cap : Nat) (tb : ShellTB) :
    (processCycle cap tb).trace_ready = true
    ∧ ((processCycle cap tb).traces ≠ tb.traces →
        dutTraceValid (shellTick cap (collectOutput
          { tb with trace_ready := true })).dut = true)
    ∧ (tb.trace_ready = false → (drainStep cap tb).traces = tb.traces)
    ∧ ((drainStep cap tb).traces ≠ tb.traces → tb.trace_ready = true) := by
  refine ⟨?_, ?_, drainStep_traces_low cap tb, ?_⟩
  · simp only [processCycle]
    rw [collectTrace_ready, shellTick_ready, collectOutput_ready]
  · intro hne
    cases hopt : (shellTick cap (collectOutput
        { tb with trace_ready := true })).dut.trace_out with
    | some r => simp [dutTraceValid, hopt]
    | none =>
        exfalso
        apply hne
        simp only [processCycle]
        rw [collectTrace_traces_eq, hopt]
        simp [shellTick_traces, collectOutput_traces]
  · intro hne
    by_contra hr
    have h3 : tb.trace_ready = false := by
      cases hb : tb.trace_ready
      · rfl
      · exact absurd hb hr
    exact hne (drainStep_traces_low cap tb h3)

/-- Witness for C6: with `trace_ready` held low a drain iteration over a DUT
presenting `trace_valid` captures nothing; and on a `process_cycle` that does
capture, the DUT was presenting `trace_valid` under the harness-asserted
`trace_ready`. -/
theorem claim_C6_witness :
    (drainStep 4 tbStarved).traces = tbStarved.traces
    ∧ dutTraceValid (shellTick 4 (collectOutput
        { tbCapture with trace_ready := true })).dut = true :=
  ⟨(claim_C6_trace_capture_handshake 4 tbStarved).2.2.1 rfl,
   (claim_C6_trace_capture_handshake 4 tbCapture).2.1 (by decide)⟩

/-! ## The overflow-liveness claim -/

/-- When `in_ready` is already asserted, the polling loop of
`send_transaction` exits at once, whatever its fuel. -/
lemma waitReadyAux_outReady (cap fuel : Nat) (tb : ShellTB)
    (h : tb.out_ready = true) :
    waitReadyAux cap fuel tb = tb := by
  have hrdy : dutInReady tb.dut (tbInputs tb) = true := by
    simp [dutInReady, tbInputs, h]
  cases fuel <;> simp [waitReadyAux, hrdy]

/-- A drain loop whose condition already fails returns its state unchanged. -/
lemma overflowDrainLoop_exit (cap t : Nat) (tb : ShellTB)
    (h : ¬ tb.transactions_received < tb.transactions_sent) :
    overflowDrainLoop cap t tb = tb := by
  cases t <;> simp [overflowDrainLoop, h]

/-- After nine more reset ticks (ten in total during `reset()`), the DUT sits
in its known-zero reset state and the cycle counter has advanced by the tick
count. -/
lemma iterate_shellTick_reset (cap : Nat) :
    ∀ (n : Nat) (tb : ShellTB), tb.rst_n = false →
      (shellTick cap)^[n + 1] tb
        = { tb with dut := dutInit, cycles_run := tb.cycles_run + (n + 1) } := by
  intro n
  induction n with
  | zero =>
      intro tb h
      rw [Function.iterate_succ_apply, Function.iterate_zero_apply,
          shellTick_reset cap tb h]
  | succ n ih =>
      intro tb h
      have e : tb.cycles_run + 1 + (n + 1) = tb.cycles_run + (n + 1 + 1) := by omega
      rw [Function.iterate_succ_apply, shellTick_reset cap tb h,
          ih { tb with dut := dutInit, cycles_run := tb.cycles_run + 1 } h]
      simp [e]

/-- The full effect of `SentinelShellTestbench::reset` on the harness state:
inputs at their defaults with reset released, eleven cycles counted, and the
DUT in its post-reset state one tick past the reset release. -/
lemma resetTB_eq (cap : Nat) (tb : ShellTB) :
    resetTB cap tb =
      { tb with rst_n := true, in_valid := false, in_data := 0, in_opcode := 0,
                in_meta := 0, out_ready := true, trace_ready := true,
                cycles_run := tb.cycles_run + 11,
                dut := { pending := none, next_tx_id := 0, time := 1, fifo := [],
                         trace_out := none, trace_drop_count := 0,
                         trace_overflow_seen := false } } := by
  unfold resetTB
  rw [show (10 : Nat) = 9 + 1 from rfl, iterate_shellTick_reset cap 9 (resetSignals tb) rfl]
  simp [shellTick, dutTick, tbInputs, dutInReady, resetSignals, dutInit]

/-- The effect of one iteration of the `test_overflow` send loop on a state
whose DUT is presenting an output (`out_valid` high): the pre-send check
counts the handshake, the send completes in a single cycle (with `out_ready`
held high `in_ready` is immediate), the completed transaction's trace record
enters the bounded buffer or is dropped when the buffer is full, nothing is
popped (`trace_ready` low), and a new transaction is admitted. -/
lemma overflowSendStep_eq_some (cap fuel j : Nat) (tb : ShellTB) (p : PendingTx)
    (h1 : tb.rst_n = true) (h3 : tb.out_ready = true) (h4 : tb.trace_ready = false)
    (hp : tb.dut.pending = some p) :
    overflowSendStep cap fuel j tb =
      { tb with
          in_valid := false, in_data := j, in_opcode := j % 65536, in_meta := j,
          cycles_run := tb.cycles_run + 1,
          transactions_sent := tb.transactions_sent + 1,
          transactions_received := tb.transactions_received + 1,
          dut := { pending := some { tx_id := tb.dut.next_tx_id,
                                     t_ingress := tb.dut.time,
                                     opcode := j % 65536, meta := j }
                   next_tx_id := tb.dut.next_tx_id + 1
                   time := tb.dut.time + 1
                   fifo := if tb.dut.fifo.length < cap
                           then tb.dut.fifo
                             ++ [{ tx_id := p.tx_id, t_ingress := p.t_ingress,
                                   t_egress := tb.dut.time, flags := 0,
                                   opcode := p.opcode, meta := p.meta }]
                           else tb.dut.fifo
                   trace_out := none
                   trace_drop_count := if tb.dut.fifo.length < cap
                                       then tb.dut.trace_drop_count
                                       else tb.dut.trace_drop_count + 1
                   trace_overflow_seen := if tb.dut.fifo.length < cap
                                          then tb.dut.trace_overflow_seen
                                          else true } } := by
  have hout : (dutOutValid tb.dut && tb.out_ready) = true := by
    simp [dutOutValid, hp, h3]
  simp only [overflowSendStep, sendTransaction]
  rw [show collectOutput tb
        = { tb with transactions_received := tb.transactions_received + 1 }
      from by simp [collectOutput, hout]]
  rw [waitReadyAux_outReady]
  · by_cases hlen : tb.dut.fifo.length < cap <;>
      simp [shellTick, dutTick, tbInputs, dutInReady, h1, h3, h4, hp, hlen]
  · exact h3

/-- The effect of the first `test_overflow` send on the post-reset state,
whose DUT is idle: no handshake to count, a transaction is admitted, the trace
buffer is untouched. -/
lemma overflowSendStep_eq_none (cap fuel j : Nat) (tb : ShellTB)
    (h1 : tb.rst_n = true) (h3 : tb.out_ready = true) (h4 : tb.trace_ready = false)
    (hp : tb.dut.pending = none) :
    overflowSendStep cap fuel j tb =
      { tb with
          in_valid := false, in_data := j, in_opcode := j % 65536, in_meta := j,
          cycles_run := tb.cycles_run + 1,
          transactions_sent := tb.transactions_sent + 1,
          dut := { pending := some { tx_id := tb.dut.next_tx_id,
                                     t_ingress := tb.dut.time,
                                     opcode := j % 65536, meta := j }
                   next_tx_id := tb.dut.next_tx_id + 1
                   time := tb.dut.time + 1
                   fifo := tb.dut.fifo
                   trace_out := none
                   trace_drop_count := tb.dut.trace_drop_count
                   trace_overflow_seen := tb.dut.trace_overflow_seen } } := by
  have hout : (dutOutValid tb.dut && tb.out_ready) = false := by
    simp [dutOutValid, hp]
  simp only [overflowSendStep, sendTransaction]
  rw [show collectOutput tb = tb from by simp [collectOutput, hout]]
  rw [waitReadyAux_outReady]
  · simp [shellTick, dutTick, tbInputs, dutInReady, h1, h3, h4, hp]
  · exact h3

/-- The effect of one iteration body of the `test_overflow` drain loop
(handshake pre-check, then a tick) on a state whose DUT is presenting an
output and whose `in_valid` is deasserted: the last in-flight transaction
completes and its trace record enters the buffer or is dropped. -/
lemma overflowDrainBody_eq (cap : Nat) (tb : ShellTB) (p : PendingTx)
    (h1 : tb.rst_n = true) (h2 : tb.in_valid = false) (h3 : tb.out_ready = true)
    (h4 : tb.trace_ready = false) (hp : tb.dut.pending = some p) :
    shellTick cap (collectOutput tb) =
      { tb with
          cycles_run := tb.cycles_run + 1,
          transactions_received := tb.transactions_received + 1,
          dut := { pending := none
                   next_tx_id := tb.dut.next_tx_id
                   time := tb.dut.time + 1
                   fifo := if tb.dut.fifo.length < cap
                           then tb.dut.fifo
                             ++ [{ tx_id := p.tx_id, t_ingress := p.t_ingress,
                                   t_egress := tb.dut.time, flags := 0,
                                   opcode := p.opcode, meta := p.meta }]
                           else tb.dut.fifo
                   trace_out := none
                   trace_drop_count := if tb.dut.fifo.length < cap
                                       then tb.dut.trace_drop_count
                                       else tb.dut.trace_drop_count + 1
                   trace_overflow_seen := if tb.dut.fifo.length < cap
                                          then tb.dut.trace_overflow_seen
                                          else true } } := by
  have hout : (dutOutValid tb.dut && tb.out_ready) = true := by
    simp [dutOutValid, hp, h3]
  rw [show collectOutput tb
        = { tb with transactions_received := tb.transactions_received + 1 }
      from by simp [collectOutput, hout]]
  by_cases hlen : tb.dut.fifo.length < cap <;>
    simp [shellTick, dutTick, tbInputs, dutInReady, h1, h2, h3, h4, hp, hlen]

/-- One send-loop iteration preserves the overflow invariant, advancing the
send count. -/
lemma ovf_step (cap fuel j i : Nat) (tb : ShellTB) (hi : 1 ≤ i)
    (h : OvfInv cap i tb) : OvfInv cap (i + 1) (overflowSendStep cap fuel j tb) := by
  obtain ⟨h1, h2, h3, h4, h5, h6, h7, h8, h9, h10⟩ := h
  cases hp : tb.dut.pending with
  | none => rw [hp] at h7; simp at h7
  | some p =>
      rw [overflowSendStep_eq_some cap fuel j tb p h1 h3 h4 hp]
      unfold OvfInv
      refine ⟨h1, rfl, h3, h4, ?_, ?_, rfl, ?_, ?_, ?_⟩
      · show tb.transactions_sent + 1 = i + 1
        rw [h5]
      · show tb.transactions_received + 1 = i + 1 - 1
        rw [h6]; omega
      · show (if tb.dut.fifo.length < cap
              then tb.dut.fifo
                ++ [{ tx_id := p.tx_id, t_ingress := p.t_ingress,
                      t_egress := tb.dut.time, flags := 0,
                      opcode := p.opcode, meta := p.meta }]
              else tb.dut.fifo).length = min (i + 1 - 1) cap
        by_cases hlen : tb.dut.fifo.length < cap
        · rw [if_pos hlen]
          simp only [List.length_append, List.length_singleton]
          rw [h8] at hlen ⊢
          omega
        · rw [if_neg hlen]
          rw [h8] at hlen ⊢
          omega
      · show (if tb.dut.fifo.length < cap then tb.dut.trace_drop_count
              else tb.dut.trace_drop_count + 1) = i + 1 - 1 - cap
        by_cases hlen : tb.dut.fifo.length < cap
        · rw [if_pos hlen, h9]
          rw [h8] at hlen
          omega
        · rw [if_neg hlen, h9]
          rw [h8] at hlen
          omega
      · show (if tb.dut.fifo.length < cap then tb.dut.trace_overflow_seen
              else true) = decide (cap < i + 1 - 1)
        by_cases hlen : tb.dut.fifo.length < cap
        · rw [if_pos hlen, h10, decide_eq_decide]
          rw [h8] at hlen
          omega
        · rw [if_neg hlen, eq_comm, decide_eq_true_eq]
          rw [h8] at hlen
          omega

/-- The overflow invariant holds after the first send of `test_overflow`. -/
lemma ovf_base (cap fuel : Nat) (s : DutState) :
    OvfInv cap 1 (overflowSendStep cap fuel 0
      { resetTB cap (initShellTB s) with trace_ready := false }) := by
  rw [resetTB_eq, overflowSendStep_eq_none]
  · unfold OvfInv
    refine ⟨rfl, rfl, rfl, rfl, rfl, rfl, rfl, ?_, ?_, ?_⟩
    · simp
    · simp
    · simp
  · rfl
  · rfl
  · rfl
  · rfl

/-- The whole send loop of `test_overflow` preserves the overflow
invariant. -/
lemma ovf_loop (cap fuel : Nat) :
    ∀ (k i j : Nat) (tb : ShellTB), 1 ≤ i → OvfInv cap i tb →
      OvfInv cap (i + k) (overflowSendFrom cap fuel j k tb) := by
  intro k
  induction k with
  | zero => intro i j tb _ h; simpa [overflowSendFrom] using h
  | succ k ih =>
      intro i j tb hi h
      have h2 := ih (i + 1) (j + 1) (overflowSendStep cap fuel j tb) (by omega)
        (ovf_step cap fuel j i tb hi h)
      have e : i + (k + 1) = i + 1 + k := by omega
      rw [e]
      simpa [overflowSendFrom] using h2

/-- From the overflow invariant after `n ≥ 1` sends, the inline drain loop of
`test_overflow` completes in a single iteration: all transactions received,
`n - cap` drops accumulated, and the overflow flag latched exactly when a
drop occurred. -/
lemma ovf_drain (cap n t : Nat) (tb : ShellTB) (hn : 1 ≤ n) (h : OvfInv cap n tb) :
    (overflowDrainLoop cap (t + 2) tb).transactions_sent = n
    ∧ (overflowDrainLoop cap (t + 2) tb).transactions_received = n
    ∧ (overflowDrainLoop cap (t + 2) tb).dut.trace_drop_count = n - cap
    ∧ (overflowDrainLoop cap (t + 2) tb).dut.trace_overflow_seen
        = decide (cap < n) := by
  obtain ⟨h1, h2, h3, h4, h5, h6, h7, h8, h9, h10⟩ := h
  cases hp : tb.dut.pending with
  | none => rw [hp] at h7; simp at h7
  | some p =>
      have hlt : tb.transactions_received < tb.transactions_sent := by
        rw [h5, h6]; omega
      have hB := overflowDrainBody_eq cap tb p h1 h2 h3 h4 hp
      have hloop1 : overflowDrainLoop cap (t + 2) tb
          = overflowDrainLoop cap (t + 1) (shellTick cap (collectOutput tb)) := by
        simp [overflowDrainLoop, hlt]
      rw [hloop1, hB, overflowDrainLoop_exit]
      · refine ⟨?_, ?_, ?_, ?_⟩
        · show tb.transactions_sent = n
          exact h5
        · show tb.transactions_received + 1 = n
          rw [h6]; omega
        · show (if tb.dut.fifo.length < cap then tb.dut.trace_drop_count
                else tb.dut.trace_drop_count + 1) = n - cap
          by_cases hlen : tb.dut.fifo.length < cap
          · rw [if_pos hlen, h9]
            rw [h8] at hlen
            omega
          · rw [if_neg hlen, h9]
            rw [h8] at hlen
            omega
        · show (if tb.dut.fifo.length < cap then tb.dut.trace_overflow_seen
                else true) = decide (cap < n)
          by_cases hlen : tb.dut.fifo.length < cap
          · rw [if_pos hlen, h10, decide_eq_decide]
            rw [h8] at hlen
            omega
          · rw [if_neg hlen, eq_comm, decide_eq_true_eq]
            rw [h8] at hlen
            omega
      · show ¬ tb.transactions_received + 1 < tb.transactions_sent
        rw [h5, h6]
        omega

/-- Claim C2: For every run of the overflow scenario — `trace_ready` held low
for the whole run — every submitted transaction is eventually received
(`transactions_received` reaches `transactions_sent`, no deadlock), for every
number of transactions, every modelled trace-buffer capacity and every
initial DUT state; and whenever more transactions are sent than the bounded
trace buffer can hold, at the end of the run `trace_drop_count > 0` (indeed
exactly `n - cap`) and `trace_overflow_seen` is latched. -/
theorem claim_C2_overflow_liveness (cap fuel n : Nat) (s : DutState) :
    (testOverflowRun cap fuel n s).transactions_sent = n
    ∧ (testOverflowRun cap fuel n s).transactions_received = n
    ∧ (cap < n →
        (testOverflowRun cap fuel n s).dut.trace_drop_count = n - cap
        ∧ 0 < (testOverflowRun cap fuel n s).dut.trace_drop_count
        ∧ (testOverflowRun cap fuel n s).dut.trace_overflow_seen = true) := by
  cases n with
  | zero =>
      simp only [testOverflowRun, overflowSendFrom]
      rw [resetTB_eq, overflowDrainLoop_exit]
      · exact ⟨rfl, rfl, fun hc => absurd hc (Nat.not_lt_zero cap)⟩
      · simp [initShellTB]
  | succ m =>
      simp only [testOverflowRun]
      have hsend : overflowSendFrom cap fuel 0 (m + 1)
            { resetTB cap (initShellTB s) with trace_ready := false }
          = overflowSendFrom cap fuel 1 m (overflowSendStep cap fuel 0
            { resetTB cap (initShellTB s) with trace_ready := false }) := by
        simp [overflowSendFrom]
      have hinv := ovf_loop cap fuel m 1 1
        (overflowSendStep cap fuel 0
          { resetTB cap (initShellTB s) with trace_ready := false })
        (by omega) (ovf_base cap fuel s)
      rw [hsend]
      have e10 : (10000 : Nat) = 9998 + 2 := by norm_num
      rw [e10]
      obtain ⟨d1, d2, d3, d4⟩ := ovf_drain cap (1 + m) 9998 _ (by omega) hinv
      refine ⟨by rw [d1]; omega, by rw [d2]; omega, fun hcap => ⟨?_, ?_, ?_⟩⟩
      · rw [d3]; omega
      · rw [d3]; omega
      · rw [d4, decide_eq_true_eq]; omega

/-- Witness for C2 with a concrete run: capacity 2, five transactions, all
five received, three drops, overflow flag latched. -/
theorem claim_C2_witness :
    2 < 5
    ∧ (testOverflowRun 2 16 5 dutInit).transactions_received = 5
    ∧ 0 < (testOverflowRun 2 16 5 dutInit).dut.trace_drop_count
    ∧ (testOverflowRun 2 16 5 dutInit).dut.trace_overflow_seen = true :=
  ⟨by decide,
   (claim_C2_overflow_liveness 2 16 5 dutInit).2.1,
   ((claim_C2_overflow_liveness 2 16 5 dutInit).2.2 (by decide)).2.1,
   ((claim_C2_overflow_liveness 2 16 5 dutInit).2.2 (by decide)).2.2⟩

end SentinelHFT
